import Mathlib

/-!
# Verification of the Atlas MicroPython display driver

Shallow embedding of the display-rendering, debounce, and timer logic of
`src/atlas.py` and `src/starter/atlas.py` (MicroNotebook/atlas-micropython).
Register writes performed by a method are collected into an explicit list of
`Frame`s (the two-byte `[command, data]` pairs sent by `_register`); Python
exceptions become `Except` errors; the mutable fields `current_num` /
`current_dp` of the `Atlas` object become an explicit `AtlasState` threaded
through the operations.
-/

namespace AtlasKit

/-! ## Module-level constants (`src/starter/atlas.py`, lines 20-64) -/

def NOOP : Nat := 0x0
def DIGIT0 : Nat := 0x1
def DIGIT1 : Nat := 0x2
def DIGIT2 : Nat := 0x3
def DIGIT3 : Nat := 0x4
def DIGIT4 : Nat := 0x5
def DIGIT5 : Nat := 0x6
def DECODE_MODE : Nat := 0x9

/-- `_DIGIT_DICT`: maps a digit position 0..5 to its MAX7219 digit-register
address.  The source dictionary is only ever indexed with 0..5; the catch-all
branch is unreachable. -/
def DIGIT_DICT : Nat → Nat
  | 0 => DIGIT0
  | 1 => DIGIT1
  | 2 => DIGIT2
  | 3 => DIGIT3
  | 4 => DIGIT4
  | 5 => DIGIT5
  | _ => NOOP

def DP : Nat := 0x80

def MAX_VALUE_DEC : Int := 999999
def MIN_VALUE_DEC : Int := -99999
def MAX_VALUE_HEX : Int := 0xFFFFFF
def MIN_VALUE_HEX : Int := 0x000000
def MAX_VALUE_DP : Int := 0b111111
def MIN_VALUE_DP : Int := 0b000000

def DEBOUNCE_SAMPLES : Nat := 32

def INTENSITY : Nat := 0xA
def SCAN_LIMIT : Nat := 0xB
def SHUTDOWN : Nat := 0xC
def DISPLAY_TEST : Nat := 0xF

/-- `_HEX_TO_SEG`: 7-segment patterns for the sixteen hex digits.  The source
dictionary is only ever indexed with `value % 16`, so the catch-all branch is
unreachable. -/
def HEX_TO_SEG : Nat → Nat
  | 0x0 => 0b1111110
  | 0x1 => 0b0110000
  | 0x2 => 0b1101101
  | 0x3 => 0b1111001
  | 0x4 => 0b0110011
  | 0x5 => 0b1011011
  | 0x6 => 0b1011111
  | 0x7 => 0b1110000
  | 0x8 => 0b1111111
  | 0x9 => 0b1111011
  | 0xA => 0b1110111
  | 0xB => 0b0011111
  | 0xC => 0b1001110
  | 0xD => 0b0111101
  | 0xE => 0b1001111
  | 0xF => 0b1000111
  | _ => 0

/-! ## Data model -/

instance {ε α : Type} [DecidableEq ε] [DecidableEq α] : DecidableEq (Except ε α) := fun a b =>
  match a, b with
  | .ok a, .ok b =>
    if h : a = b then .isTrue (by rw [h]) else .isFalse (fun hc => h (Except.ok.inj hc))
  | .error a, .error b =>
    if h : a = b then .isTrue (by rw [h]) else .isFalse (fun hc => h (Except.error.inj hc))
  | .ok _, .error _ => .isFalse (fun hc => Except.noConfusion hc)
  | .error _, .ok _ => .isFalse (fun hc => Except.noConfusion hc)

/-- One two-byte `[command, data]` pair sent to the MAX7219 by
`Atlas._register`. -/
structure Frame where
  command : Nat
  data : Nat
  deriving DecidableEq, Repr

/-- The `ValueError`s raised by the driver, distinguished by their message:
`"Value out of range"` (`write_num`, `write_hex`), `"No value to
increment"` / `"No value to decrement"` (`increment_num`, `decrement_num`),
`"Brightness out of range"` (`display_brightness`). -/
inductive Err where
  | outOfRange
  | noActiveValue
  | brightnessOutOfRange
  deriving DecidableEq, Repr

/-- The mutable display state of the `Atlas` object: `self.current_num`
(`None` at init and after `display_clear`) and `self.current_dp`. -/
structure AtlasState where
  current_num : Option Int
  current_dp : Int
  deriving DecidableEq, Repr

/-! ## Digit encoding (`Atlas.write_num`, `Atlas.write_hex`)

Inside the in-range branches of `write_num` the loop variables `value` and
`dp` are non-negative Python ints, so the loop is embedded on `Nat` (Python's
`%`, `//`, `&`, `>>` agree with the `Nat` operations there). -/

/-- The digit loop of `write_num`: `n` remaining iterations, current digit
position `i`.  Each iteration emits `value % 10`, OR-ing in the
decimal-point bit when `dp & 1` is truthy, then shifts `dp` and divides
`value` by 10. -/
def digitFrames (i value dp : Nat) : Nat → List Frame
  | 0 => []
  | n + 1 =>
    let current_value := value % 10
    (if dp &&& 1 = 1 then
      Frame.mk (DIGIT_DICT i) (current_value ||| DP)
    else
      Frame.mk (DIGIT_DICT i) current_value) ::
      digitFrames (i + 1) (value / 10) (dp >>> 1) n

/-- `Atlas.write_num(value, dp)` (`src/starter/atlas.py` lines 250-289;
identical in `src/atlas.py` lines 157-194).  Returns the frames written to
the bus, in order, and either the updated state or the raised error.  Note
the `(_DECODE_MODE, 0xFF)` frame is written unconditionally before the
range checks. -/
def write_num (_s : AtlasState) (value dp : Int) : List Frame × Except Err AtlasState :=
  let decodeFrame := Frame.mk DECODE_MODE 0xFF
  if 0 ≤ value ∧ value ≤ MAX_VALUE_DEC ∧ MIN_VALUE_DP ≤ dp ∧ dp ≤ MAX_VALUE_DP then
    (decodeFrame :: digitFrames 0 value.toNat dp.toNat 6,
     Except.ok { current_num := some value, current_dp := dp })
  else if 0 > value ∧ value ≥ MIN_VALUE_DEC ∧ MIN_VALUE_DP ≤ dp ∧ dp ≤ MAX_VALUE_DP then
    (decodeFrame :: Frame.mk DIGIT5 0xA :: digitFrames 0 (-value).toNat dp.toNat 5,
     Except.ok { current_num := some value, current_dp := dp })
  else
    ([decodeFrame], Except.error Err.outOfRange)

/-- The digit loop of `write_hex`: each iteration looks up the segment
pattern for `value % 16`, then divides `value` by 16. -/
def hexFrames (i value : Nat) : Nat → List Frame
  | 0 => []
  | n + 1 =>
    Frame.mk (DIGIT_DICT i) (HEX_TO_SEG (value % 16)) :: hexFrames (i + 1) (value / 16) n

/-- `Atlas.write_hex(value)` (`src/starter/atlas.py` lines 292-302).  Writes
`(_DECODE_MODE, 0x0)` unconditionally, then on success six raw segment
frames; `self.current_dp` is never touched. -/
def write_hex (s : AtlasState) (value : Int) : List Frame × Except Err AtlasState :=
  let decodeFrame := Frame.mk DECODE_MODE 0x0
  if 0 ≤ value ∧ value ≤ MAX_VALUE_HEX then
    (decodeFrame :: hexFrames 0 value.toNat 6,
     Except.ok { current_num := some value, current_dp := s.current_dp })
  else
    ([decodeFrame], Except.error Err.outOfRange)

/-- `Atlas.increment_num(hex)` (`src/starter/atlas.py` lines 321-336).  On
overflow past the mode's maximum, `self.current_num` is forced to `-1`
before the `+ 1` is applied. -/
def increment_num (s : AtlasState) (hex : Bool) : List Frame × Except Err AtlasState :=
  match s.current_num with
  | none => ([], Except.error Err.noActiveValue)
  | some n =>
    if hex then
      let n' := if n + 1 > MAX_VALUE_HEX then -1 else n
      write_hex { s with current_num := some n' } (n' + 1)
    else
      let n' := if n + 1 > MAX_VALUE_DEC then -1 else n
      write_num { s with current_num := some n' } (n' + 1) s.current_dp

/-- `Atlas.decrement_num(hex)` (`src/starter/atlas.py` lines 339-354).  On
underflow below the mode's minimum, `self.current_num` is forced to `1`
before the `- 1` is applied. -/
def decrement_num (s : AtlasState) (hex : Bool) : List Frame × Except Err AtlasState :=
  match s.current_num with
  | none => ([], Except.error Err.noActiveValue)
  | some n =>
    if hex then
      let n' := if n - 1 < MIN_VALUE_HEX then 1 else n
      write_hex { s with current_num := some n' } (n' - 1)
    else
      let n' := if n - 1 < MIN_VALUE_DEC then 1 else n
      write_num { s with current_num := some n' } (n' - 1) s.current_dp

/-- `Atlas.display_brightness(value)` (`src/starter/atlas.py` lines 235-239;
identical in `src/atlas.py` lines 142-146).  A single `_INTENSITY` register
write when `0 <= value <= 15`, otherwise a `ValueError` with no write.  The
guard guarantees `value` is a non-negative byte, so the emitted data byte is
`value.toNat`. -/
def display_brightness (s : AtlasState) (value : Int) : List Frame × Except Err AtlasState :=
  if 0 ≤ value ∧ value ≤ 15 then
    ([Frame.mk INTENSITY value.toNat], Except.ok s)
  else
    ([], Except.error Err.brightnessOutOfRange)

/-! ## Button debouncing (`Atlas._debounce`)

`button.value()` is a fresh read of the pin level on every call; the reads
are embedded as a stream `f : Nat → Bool` (`true` = logically high = the
pull-up idle level), consumed in call order.  Note the source reads the pin
*twice* per loop iteration: once into `flag` and once in the `if` test. -/

/-- The loop body of `_debounce`: `idx` is the index of the next unread
sample, the third argument the remaining iteration count, `flag` the value
left from the previous iteration (`0` i.e. `false` initially). -/
def debounceAux (f : Nat → Bool) : Nat → Bool → Nat → Bool
  | _, flag, 0 => !flag
  | idx, _, n + 1 =>
    let flag := f idx
    if f (idx + 1) then !flag
    else debounceAux f (idx + 2) flag n

/-- `Atlas._debounce(button)` (`src/starter/atlas.py` lines 416-425;
identical in `src/atlas.py` lines 257-266) over the sample stream `f`. -/
def debounce (f : Nat → Bool) : Bool :=
  debounceAux f 0 false DEBOUNCE_SAMPLES

/-! ## Clock rendering (`Atlas._update_clock24`) -/

/-- Python's `int(...)` applied to the non-empty all-digit string built by
`_update_clock24`: the characters are consumed left to right, each
contributing its decimal digit value (`'0'.toNat = 48`). -/
def pyIntOfDigits (s : String) : Nat :=
  s.data.foldl (fun n c => n * 10 + (c.toNat - 48)) 0

/-- The string-building part of `_update_clock24` (`src/starter/atlas.py`
lines 393-405): each field is prefixed with `'0'` when below 10, then
appended via `str(...)`. -/
def clockTimeStr (hours minutes seconds : Nat) : String :=
  (((((if hours < 10 then "0" else "") ++ toString hours)
    ++ (if minutes < 10 then "0" else "")) ++ toString minutes)
    ++ (if seconds < 10 then "0" else "")) ++ toString seconds

/-- `Atlas._update_clock24` (`src/starter/atlas.py` lines 386-407), given
the `hours`, `minutes`, `seconds` fields read from the RTC:
`self.write_num(int(time_str), 0b010100)`. -/
def update_clock24 (s : AtlasState) (hours minutes seconds : Nat) :
    List Frame × Except Err AtlasState :=
  write_num s (pyIntOfDigits (clockTimeStr hours minutes seconds) : Nat) 0b010100

/-! ## Tone timers (`Atlas.play_note`, `Atlas.play_song`, the duration
one-shot callback)

`play_note` only arms timers and returns; the pin toggling happens later in
timer-interrupt context.  Two views are embedded: a trace of the timer
operations a call issues (for sequencing), and the state transformation each
timer callback performs on the beeper timer/pin (for the callback effects). -/

/-- A timer operation issued by the tone API.  `beeper_timer` is `Timer(2)`,
each `play_note` call's `duration_timer` is `Timer(0)`.  `waitMs` stands for
a blocking delay; the tone API never issues one. -/
inductive TimerOp where
  | initPeriodic (timerId : Nat) (freq : Nat)
  | initOneShot (timerId : Nat) (period : Nat)
  | deinitTimer (timerId : Nat)
  | waitMs (ms : Nat)
  deriving DecidableEq, Repr

/-- Whether a timer operation is a blocking delay. -/
def TimerOp.isWait : TimerOp → Bool
  | .waitMs _ => true
  | _ => false

/-- The timer operations issued by one `Atlas.play_note(freq, duration)`
call (`src/starter/atlas.py` lines 310-313): re-init the periodic beeper
timer at `freq`, arm the one-shot `Timer(0)` for `duration`, return
immediately.  Frequencies are opaque tokens here (the source passes them to
`Timer.init` unchanged). -/
def play_note_ops (freq duration : Nat) : List TimerOp :=
  [TimerOp.initPeriodic 2 freq, TimerOp.initOneShot 0 duration]

/-- The timer operations issued by `Atlas.play_song(notes)`
(`src/starter/atlas.py` lines 316-318): a plain `for` loop over the notes,
calling `play_note` on each with no intervening wait. -/
def play_song_ops (notes : List (Nat × Nat)) : List TimerOp :=
  notes.flatMap (fun note => play_note_ops note.1 note.2)

/-- The beeper-related state acted on by the timer callbacks: whether the
periodic `beeper_timer` is armed, and the current level of the beeper pin. -/
structure BeeperState where
  beeperTimerArmed : Bool
  beeperPin : Bool
  deriving DecidableEq, Repr

/-- The idle (inactive) level of the sound pin: `src/atlas.py` drives the
buzzer pin to `1` at init and in `stop_note`. -/
def beeperIdleLevel : Bool := true

/-- `Atlas.beeper_callback` (`src/starter/atlas.py` lines 357-358): each
firing of the periodic beeper timer toggles the beeper pin. -/
def beeper_callback (s : BeeperState) : BeeperState :=
  { s with beeperPin := !s.beeperPin }

/-- The one-shot duration callback armed by `play_note`
(`src/starter/atlas.py` line 313): `lambda _: self.beeper_timer.deinit()`.
It disarms the periodic beeper timer and does nothing else. -/
def duration_callback (s : BeeperState) : BeeperState :=
  { s with beeperTimerArmed := false }

/-! ## Helper lemmas -/

theorem lor_DP_eq (k : Nat) (h : k < 10) : k ||| DP = k + 128 := by
  interval_cases k <;> rfl

theorem digitFrames_zero (i v d : Nat) : digitFrames i v d 0 = [] := rfl

theorem digitFrames_step (i v d n : Nat) :
    digitFrames i v d (n + 1) =
      Frame.mk (DIGIT_DICT i) (v % 10 + if d % 2 = 1 then 128 else 0) ::
        digitFrames (i + 1) (v / 10) (d / 2) n := by
  simp only [digitFrames, Nat.and_one_is_mod, Nat.shiftRight_one]
  congr 1
  by_cases h : d % 2 = 1
  · rw [if_pos h, if_pos h, lor_DP_eq _ (Nat.mod_lt _ (by norm_num))]
  · rw [if_neg h, if_neg h, Nat.add_zero]

theorem digitFrames_six (v d : Nat) :
    digitFrames 0 v d 6 =
      [Frame.mk 1 (v % 10 + if d % 2 = 1 then 128 else 0),
       Frame.mk 2 (v / 10 % 10 + if d / 2 % 2 = 1 then 128 else 0),
       Frame.mk 3 (v / 100 % 10 + if d / 4 % 2 = 1 then 128 else 0),
       Frame.mk 4 (v / 1000 % 10 + if d / 8 % 2 = 1 then 128 else 0),
       Frame.mk 5 (v / 10000 % 10 + if d / 16 % 2 = 1 then 128 else 0),
       Frame.mk 6 (v / 100000 % 10 + if d / 32 % 2 = 1 then 128 else 0)] := by
  rw [show (6 : Nat) = 5 + 1 from rfl, digitFrames_step,
    show (5 : Nat) = 4 + 1 from rfl, digitFrames_step,
    show (4 : Nat) = 3 + 1 from rfl, digitFrames_step,
    show (3 : Nat) = 2 + 1 from rfl, digitFrames_step,
    show (2 : Nat) = 1 + 1 from rfl, digitFrames_step,
    show (1 : Nat) = 0 + 1 from rfl, digitFrames_step, digitFrames_zero]
  norm_num [Nat.div_div_eq_div_mul, DIGIT_DICT, DIGIT0, DIGIT1, DIGIT2, DIGIT3,
    DIGIT4, DIGIT5]

theorem digitFrames_five (v d : Nat) :
    digitFrames 0 v d 5 =
      [Frame.mk 1 (v % 10 + if d % 2 = 1 then 128 else 0),
       Frame.mk 2 (v / 10 % 10 + if d / 2 % 2 = 1 then 128 else 0),
       Frame.mk 3 (v / 100 % 10 + if d / 4 % 2 = 1 then 128 else 0),
       Frame.mk 4 (v / 1000 % 10 + if d / 8 % 2 = 1 then 128 else 0),
       Frame.mk 5 (v / 10000 % 10 + if d / 16 % 2 = 1 then 128 else 0)] := by
  rw [show (5 : Nat) = 4 + 1 from rfl, digitFrames_step,
    show (4 : Nat) = 3 + 1 from rfl, digitFrames_step,
    show (3 : Nat) = 2 + 1 from rfl, digitFrames_step,
    show (2 : Nat) = 1 + 1 from rfl, digitFrames_step,
    show (1 : Nat) = 0 + 1 from rfl, digitFrames_step, digitFrames_zero]
  norm_num [Nat.div_div_eq_div_mul, DIGIT_DICT, DIGIT0, DIGIT1, DIGIT2, DIGIT3,
    DIGIT4]

/-! ## Claim C1 -/

/-- Claim C1: for every `value` in `[0, 999999]` and `mask` in `[0, 0b111111]`,
`write_num` emits six digit frames, one per digit position 0..5 in
least-to-most-significant order, where frame `i` carries digit
`(value / 10^i) % 10` and has the decimal-point bit `0x80` OR'd in iff bit
`i` of the mask is set; the six digit fields reconstruct `value` exactly. -/
theorem write_num_decimal_encodes (s : AtlasState) (value dp : Int)
    (h1 : 0 ≤ value) (h2 : value ≤ 999999) (h3 : 0 ≤ dp) (h4 : dp ≤ 63) :
    write_num s value dp =
      ([Frame.mk DECODE_MODE 0xFF,
        Frame.mk 1 (value.toNat % 10 + if dp.toNat.testBit 0 then 128 else 0),
        Frame.mk 2 (value.toNat / 10 % 10 + if dp.toNat.testBit 1 then 128 else 0),
        Frame.mk 3 (value.toNat / 100 % 10 + if dp.toNat.testBit 2 then 128 else 0),
        Frame.mk 4 (value.toNat / 1000 % 10 + if dp.toNat.testBit 3 then 128 else 0),
        Frame.mk 5 (value.toNat / 10000 % 10 + if dp.toNat.testBit 4 then 128 else 0),
        Frame.mk 6 (value.toNat / 100000 % 10 + if dp.toNat.testBit 5 then 128 else 0)],
       Except.ok { current_num := some value, current_dp := dp }) ∧
    value.toNat % 10 + value.toNat / 10 % 10 * 10 + value.toNat / 100 % 10 * 100 +
      value.toNat / 1000 % 10 * 1000 + value.toNat / 10000 % 10 * 10000 +
      value.toNat / 100000 % 10 * 100000 = value.toNat := by
  constructor
  · unfold write_num
    rw [if_pos (by simp only [MAX_VALUE_DEC, MIN_VALUE_DP, MAX_VALUE_DP]; omega)]
    rw [digitFrames_six]
    simp only [Nat.testBit_to_div_mod]
    norm_num
  · omega

/-- Witness for `write_num_decimal_encodes` at `value = 123`, `mask = 0b10`. -/
theorem write_num_decimal_encodes_witness :
    (write_num ⟨none, 0⟩ 123 2).1 =
      [Frame.mk 9 255, Frame.mk 1 3, Frame.mk 2 130, Frame.mk 3 1,
       Frame.mk 4 0, Frame.mk 5 0, Frame.mk 6 0] := by
  have h := write_num_decimal_encodes ⟨none, 0⟩ 123 2 (by norm_num) (by norm_num)
    (by norm_num) (by norm_num)
  rw [h.1]
  decide

/-! ## Claim C5 -/

/-- Claim C5: for every `value` in `[-99999, -1]` and every mask in
`[0, 0b111111]`, `write_num` emits a fixed minus-sign glyph frame (data
`0xA`, rendered as `-` in decode mode) at digit position 5 and exactly five
digit frames at positions 0..4 which, read least-to-most-significant,
reconstruct `abs(value)`. -/
theorem write_num_negative_encodes (s : AtlasState) (value dp : Int)
    (h1 : -99999 ≤ value) (h2 : value ≤ -1) (h3 : 0 ≤ dp) (h4 : dp ≤ 63) :
    write_num s value dp =
      ([Frame.mk DECODE_MODE 0xFF,
        Frame.mk DIGIT5 0xA,
        Frame.mk 1 ((-value).toNat % 10 + if dp.toNat.testBit 0 then 128 else 0),
        Frame.mk 2 ((-value).toNat / 10 % 10 + if dp.toNat.testBit 1 then 128 else 0),
        Frame.mk 3 ((-value).toNat / 100 % 10 + if dp.toNat.testBit 2 then 128 else 0),
        Frame.mk 4 ((-value).toNat / 1000 % 10 + if dp.toNat.testBit 3 then 128 else 0),
        Frame.mk 5 ((-value).toNat / 10000 % 10 + if dp.toNat.testBit 4 then 128 else 0)],
       Except.ok { current_num := some value, current_dp := dp }) ∧
    (-value).toNat % 10 + (-value).toNat / 10 % 10 * 10 +
      (-value).toNat / 100 % 10 * 100 + (-value).toNat / 1000 % 10 * 1000 +
      (-value).toNat / 10000 % 10 * 10000 = (-value).toNat := by
  constructor
  · unfold write_num
    rw [if_neg (by simp only [MAX_VALUE_DEC, MIN_VALUE_DP, MAX_VALUE_DP]; omega)]
    rw [if_pos (by simp only [MIN_VALUE_DEC, MIN_VALUE_DP, MAX_VALUE_DP]; omega)]
    rw [digitFrames_five]
    simp only [Nat.testBit_to_div_mod]
    norm_num
  · omega

/-- Witness for `write_num_negative_encodes` at `value = -45`, `mask = 0b10`. -/
theorem write_num_negative_encodes_witness :
    (write_num ⟨none, 0⟩ (-45) 2).1 =
      [Frame.mk 9 255, Frame.mk 6 10, Frame.mk 1 5, Frame.mk 2 132,
       Frame.mk 3 0, Frame.mk 4 0, Frame.mk 5 0] := by
  have h := write_num_negative_encodes ⟨none, 0⟩ (-45) 2 (by norm_num) (by norm_num)
    (by norm_num) (by norm_num)
  rw [h.1]
  decide

/-! ## Claim C2 -/

/-- Counterexample to claim C2 as stated: `write_num(1000000, 0)` does raise
`OutOfRange` and leaves the stored state untouched, but it performs a
register write *before* raising — the unconditional `(_DECODE_MODE, 0xFF)`
frame at the top of `write_num` precedes the range check, so the emitted
frame list is non-empty. -/
theorem write_num_out_of_range_counterexample :
    write_num ⟨some 42, 3⟩ 1000000 0 =
      ([Frame.mk DECODE_MODE 0xFF], Except.error Err.outOfRange) ∧
    (write_num ⟨some 42, 3⟩ 1000000 0).1 ≠ [] := by
  decide

/-- Claim C2, amended: whenever `write_num` is called with `value > 999999`,
`value < -99999`, `mask < 0`, or `mask > 0b111111`, it raises `OutOfRange`
having emitted only the unconditional decode-mode register frame — no digit
register write — and the stored current number and decimal-point mask are
unchanged (the error result leaves the caller's state untouched). -/
theorem write_num_out_of_range (s : AtlasState) (value dp : Int)
    (h : value > 999999 ∨ value < -99999 ∨ dp < 0 ∨ dp > 63) :
    write_num s value dp = ([Frame.mk DECODE_MODE 0xFF], Except.error Err.outOfRange) := by
  unfold write_num
  rw [if_neg (by simp only [MAX_VALUE_DEC, MIN_VALUE_DP, MAX_VALUE_DP]; omega)]
  rw [if_neg (by simp only [MIN_VALUE_DEC, MIN_VALUE_DP, MAX_VALUE_DP]; omega)]

/-- Witness for `write_num_out_of_range` at `value = -100000`. -/
theorem write_num_out_of_range_witness :
    write_num ⟨some 7, 1⟩ (-100000) 0 =
      ([Frame.mk DECODE_MODE 0xFF], Except.error Err.outOfRange) :=
  write_num_out_of_range ⟨some 7, 1⟩ (-100000) 0 (by norm_num)

/-! ## Claim C4 -/

/-- Claim C4: `increment_num` on a stored value at the mode's maximum
(`999999` decimal, `0xFFFFFF` hexadecimal) forces the value to `-1` before
adding 1, so the resulting stored and displayed value is 0; symmetrically,
`decrement_num` at the mode's minimum (`-99999` decimal, `0x000000`
hexadecimal) forces the value to `1` before subtracting 1, so the resulting
value is 0.  The emitted frames are exactly those of a write of 0. -/
theorem increment_decrement_wrap_to_zero (dp : Int) (h3 : 0 ≤ dp) (h4 : dp ≤ 63) :
    increment_num ⟨some 999999, dp⟩ false =
      (Frame.mk DECODE_MODE 0xFF :: digitFrames 0 0 dp.toNat 6,
       Except.ok ⟨some 0, dp⟩) ∧
    increment_num ⟨some 0xFFFFFF, dp⟩ true =
      (Frame.mk DECODE_MODE 0x0 :: hexFrames 0 0 6,
       Except.ok ⟨some 0, dp⟩) ∧
    decrement_num ⟨some (-99999), dp⟩ false =
      (Frame.mk DECODE_MODE 0xFF :: digitFrames 0 0 dp.toNat 6,
       Except.ok ⟨some 0, dp⟩) ∧
    decrement_num ⟨some 0, dp⟩ true =
      (Frame.mk DECODE_MODE 0x0 :: hexFrames 0 0 6,
       Except.ok ⟨some 0, dp⟩) := by
  refine ⟨?_, ?_, ?_, ?_⟩
  · show write_num ⟨some (-1), dp⟩ ((-1) + 1) dp = _
    unfold write_num
    rw [if_pos (by simp only [MAX_VALUE_DEC, MIN_VALUE_DP, MAX_VALUE_DP]; omega)]
    norm_num
  · show write_hex ⟨some (-1), dp⟩ ((-1) + 1) = _
    unfold write_hex
    rw [if_pos (by simp only [MAX_VALUE_HEX]; omega)]
    norm_num
  · show write_num ⟨some 1, dp⟩ (1 - 1) dp = _
    unfold write_num
    rw [if_pos (by simp only [MAX_VALUE_DEC, MIN_VALUE_DP, MAX_VALUE_DP]; omega)]
    norm_num
  · show write_hex ⟨some 1, dp⟩ (1 - 1) = _
    unfold write_hex
    rw [if_pos (by simp only [MAX_VALUE_HEX]; omega)]
    norm_num

/-- Witness for `increment_decrement_wrap_to_zero` at stored mask 0. -/
theorem increment_decrement_wrap_to_zero_witness :
    (increment_num ⟨some 999999, 0⟩ false).2 = Except.ok ⟨some 0, 0⟩ ∧
    (increment_num ⟨some 0xFFFFFF, 0⟩ true).2 = Except.ok ⟨some 0, 0⟩ ∧
    (decrement_num ⟨some (-99999), 0⟩ false).2 = Except.ok ⟨some 0, 0⟩ ∧
    (decrement_num ⟨some 0, 0⟩ true).2 = Except.ok ⟨some 0, 0⟩ := by
  have h := increment_decrement_wrap_to_zero 0 (by norm_num) (by norm_num)
  refine ⟨?_, ?_, ?_, ?_⟩
  · rw [h.1]
  · rw [h.2.1]
  · rw [h.2.2.1]
  · rw [h.2.2.2]

/-! ## Claim C9 -/

/-- Claim C9: for every in-range `value` in `[0, 0xFFFFFF]`, `write_hex`
updates the stored current number but leaves the stored decimal-point mask
`current_dp` unchanged, so a subsequent decimal `increment_num` call on the
resulting state passes the decimal-point mask of the most recent `write_num`
on to `write_num` again. -/
theorem write_hex_preserves_dp (s : AtlasState) (value : Int)
    (h1 : 0 ≤ value) (h2 : value ≤ 0xFFFFFF) :
    (write_hex s value).2 =
      Except.ok { current_num := some value, current_dp := s.current_dp } ∧
    increment_num { current_num := some value, current_dp := s.current_dp } false =
      write_num
        { current_num := some (if value + 1 > 999999 then -1 else value),
          current_dp := s.current_dp }
        ((if value + 1 > 999999 then (-1 : Int) else value) + 1) s.current_dp := by
  constructor
  · unfold write_hex
    rw [if_pos (by simp only [MAX_VALUE_HEX]; omega)]
  · rfl

/-- Witness for `write_hex_preserves_dp`: a hex write over a state whose
stored mask is 5 keeps `current_dp = 5`. -/
theorem write_hex_preserves_dp_witness :
    (write_hex ⟨some 12, 5⟩ 0xABCDE).2 = Except.ok ⟨some 0xABCDE, 5⟩ := by
  have h := write_hex_preserves_dp ⟨some 12, 5⟩ 0xABCDE (by norm_num) (by norm_num)
  exact h.1

/-! ## Claim C10 -/

/-- Claim C10: `display_brightness(value)` performs a single
intensity-register write iff `0 ≤ value ≤ 15`; for every value outside that
range it raises an error and performs no register write, leaving the stored
display state unchanged (the error result leaves the caller's state
untouched). -/
theorem display_brightness_single_write (s : AtlasState) (value : Int) :
    (0 ≤ value ∧ value ≤ 15 →
      display_brightness s value = ([Frame.mk INTENSITY value.toNat], Except.ok s)) ∧
    (¬(0 ≤ value ∧ value ≤ 15) →
      display_brightness s value = ([], Except.error Err.brightnessOutOfRange)) := by
  constructor
  · intro h
    unfold display_brightness
    rw [if_pos h]
  · intro h
    unfold display_brightness
    rw [if_neg h]

/-- Witness for `display_brightness_single_write` at `value = 5` (in range)
and `value = 16` (out of range). -/
theorem display_brightness_single_write_witness :
    display_brightness ⟨some 3, 1⟩ 5 = ([Frame.mk INTENSITY 5], Except.ok ⟨some 3, 1⟩) ∧
    display_brightness ⟨some 3, 1⟩ 16 = ([], Except.error Err.brightnessOutOfRange) := by
  constructor
  · exact (display_brightness_single_write ⟨some 3, 1⟩ 5).1 (by norm_num)
  · exact (display_brightness_single_write ⟨some 3, 1⟩ 16).2 (by norm_num)

/-! ## Claim C3 -/

theorem debounceAux_zero (f : Nat → Bool) (idx : Nat) (flag : Bool) :
    debounceAux f idx flag 0 = !flag := rfl

theorem debounceAux_step (f : Nat → Bool) (idx : Nat) (flag : Bool) (n : Nat) :
    debounceAux f idx flag (n + 1) =
      if f (idx + 1) then !f idx else debounceAux f (idx + 2) (f idx) n := by
  simp only [debounceAux]

theorem debounceAux_no_high (f : Nat → Bool) (n : Nat) :
    ∀ idx flag, (∀ j, j < n + 1 → f (idx + 2 * j + 1) = false) →
      debounceAux f idx flag (n + 1) = !f (idx + 2 * n) := by
  induction n with
  | zero =>
    intro idx flag h
    have h0 : f (idx + 1) = false := by simpa using h 0 (by norm_num)
    rw [debounceAux_step, if_neg (by simp [h0]), debounceAux_zero]
    norm_num
  | succ n ih =>
    intro idx flag h
    have h0 : f (idx + 1) = false := by simpa using h 0 (by norm_num)
    rw [debounceAux_step, if_neg (by simp [h0])]
    have ih' := ih (idx + 2) (f idx) (fun j hj => by
      have hx := h (j + 1) (by omega)
      have harg : idx + 2 * (j + 1) + 1 = idx + 2 + 2 * j + 1 := by omega
      rwa [harg] at hx)
    rw [ih']
    congr 2
    omega

theorem debounceAux_first_high (f : Nat → Bool) (n : Nat) :
    ∀ idx flag j, j < n → f (idx + 2 * j + 1) = true →
      (∀ i, i < j → f (idx + 2 * i + 1) = false) →
      debounceAux f idx flag n = !f (idx + 2 * j) := by
  induction n with
  | zero =>
    intro idx flag j hj
    exact absurd hj (by omega)
  | succ n ih =>
    intro idx flag j hj hhigh hlow
    rw [debounceAux_step]
    cases j with
    | zero =>
      have hhigh' : f (idx + 1) = true := by simpa using hhigh
      rw [if_pos hhigh']
      norm_num
    | succ j' =>
      have h0 : f (idx + 1) = false := by simpa using hlow 0 (by omega)
      rw [if_neg (by simp [h0])]
      have hhigh' : f (idx + 2 + 2 * j' + 1) = true := by
        have harg : idx + 2 * (j' + 1) + 1 = idx + 2 + 2 * j' + 1 := by omega
        rwa [harg] at hhigh
      have hlow' : ∀ i, i < j' → f (idx + 2 + 2 * i + 1) = false := fun i hi => by
        have hx := hlow (i + 1) (by omega)
        have harg : idx + 2 * (i + 1) + 1 = idx + 2 + 2 * i + 1 := by omega
        rwa [harg] at hx
      rw [ih (idx + 2) (f idx) j' (by omega) hhigh' hlow']
      congr 2
      omega

/-- Counterexample to claim C3 as stated: the source reads the pin twice per
iteration (`flag = button.value()` then `if button.value():`), so on the
sample stream that reads low (`false`) at call 0 and high (`true`) at call 1,
a sample within the window reads logically high, yet `_debounce` returns
`not flag = not False = True` — the negation of the *previous* read, not the
negation of the high reading (which would be `False`). -/
theorem debounce_bounce_counterexample :
    (fun k => decide (k = 1)) 1 = true ∧ (1 : Nat) < 32 ∧
    debounce (fun k => decide (k = 1)) ≠ false := by
  refine ⟨rfl, by norm_num, ?_⟩
  decide

/-- Claim C3, amended: `_debounce` reads the input level twice per loop
iteration, for at most 32 iterations (so at most 64 reads, consumed here as
the stream `f`).  If the second read of some iteration `j` (sample
`2*j + 1`) is the first such read to be logically high, the function returns
the negation of the *first* read of that iteration (sample `2*j`); if all 32
iterations pass without the second read being high, it returns the negation
of the final iteration's first read (sample `62`). -/
theorem debounce_characterized (f : Nat → Bool) :
    ((∀ j, j < 32 → f (2 * j + 1) = false) → debounce f = !f 62) ∧
    (∀ j, j < 32 → f (2 * j + 1) = true → (∀ i, i < j → f (2 * i + 1) = false) →
      debounce f = !f (2 * j)) := by
  constructor
  · intro h
    have hx := debounceAux_no_high f 31 0 false (fun j hj => by
      simpa using h j (by omega))
    simpa [debounce, DEBOUNCE_SAMPLES] using hx
  · intro j hj hhigh hlow
    have hx := debounceAux_first_high f 32 0 false j hj (by simpa using hhigh)
      (fun i hi => by simpa using hlow i hi)
    simpa [debounce, DEBOUNCE_SAMPLES] using hx

/-- Witness for `debounce_characterized`: on the all-low (pressed, bouncing
never) stream the debounce returns `true`. -/
theorem debounce_characterized_witness : debounce (fun _ => false) = true := by
  have h := (debounce_characterized (fun _ => false)).1 (fun j hj => rfl)
  simpa using h

/-! ## Claim C6 -/

theorem digitChar_toNat : ∀ d, d < 10 → (Nat.digitChar d).toNat = 48 + d := by
  decide

theorem two_digit_data : ∀ n, n < 100 →
    ((if n < 10 then "0" else "") ++ toString n).data =
      [Nat.digitChar (n / 10), Nat.digitChar (n % 10)] := by
  decide

theorem foldl_two_digit (n a : Nat) (h : n < 100) :
    List.foldl (fun m c => m * 10 + (c.toNat - 48))
      (List.foldl (fun m c => m * 10 + (c.toNat - 48)) a
        (if n < 10 then "0" else "").data)
      (toString n).data = a * 100 + n := by
  rw [← List.foldl_append, ← String.data_append, two_digit_data n h]
  simp only [List.foldl_cons, List.foldl_nil]
  rw [digitChar_toNat _ (show n / 10 < 10 by omega),
    digitChar_toNat _ (show n % 10 < 10 by omega)]
  omega

theorem pyIntOfDigits_clockTimeStr (hours minutes seconds : Nat)
    (hh : hours < 100) (hm : minutes < 100) (hs : seconds < 100) :
    pyIntOfDigits (clockTimeStr hours minutes seconds) =
      hours * 10000 + minutes * 100 + seconds := by
  unfold pyIntOfDigits clockTimeStr
  simp only [String.data_append, List.foldl_append]
  rw [foldl_two_digit hours 0 hh, foldl_two_digit minutes (0 * 100 + hours) hm,
    foldl_two_digit seconds ((0 * 100 + hours) * 100 + minutes) hs]
  omega

/-- Claim C6: for every clock sample with `hours < 24`, `minutes < 60`,
`seconds < 60`, the clock refresh formats each field as two zero-padded
decimal digits, concatenates them as `HHMMSS`, and calls `write_num` with
the resulting decimal integer `hours*10000 + minutes*100 + seconds` and the
fixed separator decimal-point mask `0b010100`. -/
theorem update_clock24_renders (s : AtlasState) (hours minutes seconds : Nat)
    (hh : hours < 24) (hm : minutes < 60) (hs : seconds < 60) :
    pyIntOfDigits (clockTimeStr hours minutes seconds) =
      hours * 10000 + minutes * 100 + seconds ∧
    update_clock24 s hours minutes seconds =
      write_num s ((hours * 10000 + minutes * 100 + seconds : Nat) : Int) 0b010100 := by
  have key := pyIntOfDigits_clockTimeStr hours minutes seconds (by omega) (by omega)
    (by omega)
  refine ⟨key, ?_⟩
  unfold update_clock24
  rw [key]

/-- Witness for `update_clock24_renders` at `hours = 7`, `minutes = 5`,
`seconds = 9`: the rendered value is `070509`, i.e. `70509`. -/
theorem update_clock24_renders_witness :
    update_clock24 ⟨none, 0⟩ 7 5 9 = write_num ⟨none, 0⟩ 70509 20 := by
  have h := (update_clock24_renders ⟨none, 0⟩ 7 5 9 (by norm_num) (by norm_num)
    (by norm_num)).2
  rw [h]
  norm_num

/-! ## Claim C7 -/

/-- The effect of `Atlas.play_note` on the beeper state: the periodic
`beeper_timer` is (re-)armed; the pin is not touched by the call itself. -/
def play_note_state (s : BeeperState) : BeeperState :=
  { s with beeperTimerArmed := true }

/-- Counterexample to claim C7 as stated: the one-shot duration callback is
`lambda _: self.beeper_timer.deinit()` — it disarms the periodic tone timer
but does *not* force the sound pin to its idle level.  Starting from the
idle pin level, after `play_note` and one periodic toggle, the one-shot
firing leaves the pin at the active (non-idle) level. -/
theorem play_note_one_shot_counterexample :
    (duration_callback (beeper_callback (play_note_state ⟨false, true⟩))).beeperPin ≠
      beeperIdleLevel ∧
    (duration_callback (beeper_callback (play_note_state ⟨false, true⟩))).beeperTimerArmed =
      false := by
  decide

/-- Claim C7, amended: after `play_note` arms the periodic tone-toggle timer
and the tone timer has toggled the pin any number of times, the firing of
the one-shot duration timer disarms the periodic tone timer but leaves the
sound-output pin at whatever level the last toggle left it (the callback
does not drive the pin to its idle level). -/
theorem duration_one_shot_effect (s : BeeperState) (n : Nat) :
    (duration_callback (beeper_callback^[n] (play_note_state s))).beeperTimerArmed =
      false ∧
    (duration_callback (beeper_callback^[n] (play_note_state s))).beeperPin =
      (beeper_callback^[n] (play_note_state s)).beeperPin :=
  ⟨rfl, rfl⟩

/-! ## Claim C8 -/

/-- Claim C8 evaluated at the failing input `[(392, 800), (440, 800)]`: the
trace of timer operations issued by `play_song` is the two `play_note`
arm-pairs back to back, with no blocking wait anywhere — the second note's
periodic init (on the same `Timer(2)`) is issued immediately after the
first note's, while the first note's 800 ms one-shot is still pending, so
the first note does not complete before the second is issued. -/
theorem play_song_no_sequencing :
    play_song_ops [(392, 800), (440, 800)] =
      [TimerOp.initPeriodic 2 392, TimerOp.initOneShot 0 800,
       TimerOp.initPeriodic 2 440, TimerOp.initOneShot 0 800] ∧
    (play_song_ops [(392, 800), (440, 800)]).all (fun op => ! op.isWait) = true := by
  decide
